import Mathlib

/-!
Shallow embedding of the scheduling-and-delivery pipeline of `src/main.py`
(MicroPython DHT11 → AWS IoT MQTT publisher).

Side effects are made explicit: every modelled operation returns its result
value, the new value of the `mqtt_client` global (modelled as a `Bool`,
`true` iff `mqtt_client` is not `None`), and the list of observable I/O
events it performed, in order.  External outcomes (whether the sensor read
raises, whether `client.connect()` raises, whether `client.publish(...)`
raises, whether the Wi-Fi link is up at a given poll) are oracle inputs.
-/

namespace AwsDht

/-- Observable I/O events of the modelled program.  `clientConnect` is one
MQTT/TLS connect handshake attempt on the transport (`mqtt_client.connect()`),
`send` is one transport-level publish attempt (`mqtt_client.publish(...)`),
`clientDisconnect` is `mqtt_client.disconnect()`, `sensorRead` is one
`dht_sensor.measure()` attempt, `sleepSec n` is `time.sleep(n)`, `reset` is
`machine.reset()`, `log` is a diagnostic `print`. -/
inductive Ev where
  | sensorRead : Ev
  | clientConnect : Ev
  | send : String → String → Ev
  | clientDisconnect : Ev
  | sleepSec : Nat → Ev
  | log : String → Ev
  | reset : Ev
  deriving DecidableEq

/-- Configuration loaded at startup; only the thing name matters for the
claims (src/main.py line 29). -/
structure Config where
  thing_name : String
  deriving DecidableEq

/-- THING_NAME placeholder value from src/main.py line 29. -/
def THING_NAME : String := "Your thing name"

/-- MQTT_TOPIC = "devices/\x7b\x7d/telemetry".format(THING_NAME), src/main.py line 31. -/
def mqtt_topic (cfg : Config) : String :=
  "devices/" ++ cfg.thing_name ++ "/telemetry"

/-- Embedding of `mqtt_connect` (src/main.py lines 85-97).  `hasClient` is
whether `mqtt_client` is currently not `None`; `connectOk` is whether the
`mqtt_client.connect()` call succeeds (does not raise).  If `mqtt_client` is
`None` a client object is first created (`make_mqtt_client`, no transport
I/O); then `connect()` is always attempted.  On failure `mqtt_client` is set
back to `None`. -/
def mqtt_connect (hasClient connectOk : Bool) : Bool × Bool × List Ev :=
  let hasClient1 := if hasClient then hasClient else true
  if connectOk then (true, hasClient1, [Ev.clientConnect])
  else (false, false, [Ev.clientConnect])

/-- Embedding of the `try: mqtt_client.publish(...)` block of `mqtt_publish`
(src/main.py lines 104-114).  `sendOk` is whether the transport-level send
succeeds.  On a send failure the code attempts `disconnect()` (errors
swallowed) and sets `mqtt_client = None`. -/
def publish_try (cfg : Config) (hasClient sendOk : Bool) (payload : String) :
    Bool × Bool × List Ev :=
  if sendOk then (true, hasClient, [Ev.send (mqtt_topic cfg) payload])
  else (false, false, [Ev.send (mqtt_topic cfg) payload, Ev.clientDisconnect])

/-- Embedding of `mqtt_publish` (src/main.py lines 99-114).  If `mqtt_client`
is `None` the code first calls `mqtt_connect()`; only if that fails does it
return `False` without a send. -/
def mqtt_publish (cfg : Config) (hasClient connectOk sendOk : Bool)
    (payload : String) : Bool × Bool × List Ev :=
  if hasClient then publish_try cfg hasClient sendOk payload
  else
    let c := mqtt_connect hasClient connectOk
    if c.1 then
      let p := publish_try cfg c.2.1 sendOk payload
      (p.1, p.2.1, c.2.2 ++ p.2.2)
    else (false, c.2.1, c.2.2)

/-- JSON values occurring in the telemetry payload dict (strings and
integers only). -/
inductive JVal where
  | str : String → JVal
  | int : Int → JVal
  deriving DecidableEq

/-- Little-endian base-10 digits with explicit fuel (structural recursion so
that concrete instances reduce by `rfl`). -/
def natDigitsF : Nat → Nat → List Nat
  | 0, _ => []
  | fuel + 1, n => if n = 0 then [] else n % 10 :: natDigitsF fuel (n / 10)

/-- Little-endian base-10 digits of `n` (fuel `n` always suffices). -/
def natDigits (n : Nat) : List Nat := natDigitsF n n

/-- Decimal digit to its ASCII character. -/
def digitChar : Nat → Char
  | 0 => '0'
  | 1 => '1'
  | 2 => '2'
  | 3 => '3'
  | 4 => '4'
  | 5 => '5'
  | 6 => '6'
  | 7 => '7'
  | 8 => '8'
  | _ => '9'

/-- ASCII digit character back to its value. -/
def charVal (c : Char) : Nat := c.toNat - 48

/-- Whether `c` is an ASCII decimal digit. -/
def isDigitC (c : Char) : Bool := Nat.ble 48 c.toNat && Nat.ble c.toNat 57

/-- Decimal representation of a natural number, as Python `str` produces. -/
def natChars (n : Nat) : List Char :=
  if n = 0 then ['0'] else ((natDigits n).map digitChar).reverse

/-- Decimal representation of an integer, as Python `str`/`json.dumps`
produce. -/
def intChars (i : Int) : List Char :=
  if i < 0 then '-' :: natChars i.natAbs else natChars i.toNat

/-- Rendering of one JSON value (the payload strings contain no characters
needing escapes). -/
def renderJVal : JVal → List Char
  | JVal.str s => '"' :: s.data ++ ['"']
  | JVal.int i => intChars i

/-- Rendering of one pair, with the default `json.dumps` key separator
(a colon followed by a space). -/
def renderPair (p : String × JVal) : List Char :=
  '"' :: p.1.data ++ '"' :: ':' :: ' ' :: renderJVal p.2

/-- Rendering of the members of a JSON object, with the default
`json.dumps` item separator (a comma followed by a space). -/
def renderObj : List (String × JVal) → List Char
  | [] => []
  | [p] => renderPair p
  | p :: q :: rest => renderPair p ++ ',' :: ' ' :: renderObj (q :: rest)

/-- Embedding of `json.dumps` on a flat string/integer dict (default
separators — a space after every colon and comma — and insertion
order). -/
def json_dumps (l : List (String × JVal)) : String :=
  String.mk ( '\x7b' :: renderObj l ++ [ '\x7d' ])

/-- The payload dict built by `measure_and_publish` (src/main.py lines
132-137): exactly the keys thing, timestamp, temperature_C, humidity_pct,
in that order. -/
def telemetry_payload (thing : String) (timestamp tempv : Int) (hum : Nat) :
    List (String × JVal) :=
  [("thing", JVal.str thing), ("timestamp", JVal.int timestamp),
   ("temperature_C", JVal.int tempv), ("humidity_pct", JVal.int (hum : Int))]

/-- Oracle inputs for one scheduling cycle: whether the sensor read
succeeds and the values it returns, the current time, and the outcomes of
any `connect()` / `publish()` transport operations in this cycle, including
the backoff reconnect in `main`. -/
structure CycleEnv where
  sensorOk : Bool
  temp : Int
  hum : Nat
  now : Int
  connectOk : Bool
  sendOk : Bool
  reconnectOk : Bool
  deriving DecidableEq

/-- Embedding of `measure_and_publish` (src/main.py lines 119-146).  A
sensor read failure returns `False` at once, with no payload built and no
publish call. -/
def measure_and_publish (cfg : Config) (hasClient : Bool) (e : CycleEnv) :
    Bool × Bool × List Ev :=
  if e.sensorOk then
    let payload_json := json_dumps (telemetry_payload cfg.thing_name e.now e.temp e.hum)
    let r := mqtt_publish cfg hasClient e.connectOk e.sendOk payload_json
    (r.1, r.2.1, Ev.sensorRead :: r.2.2)
  else (false, hasClient, [Ev.sensorRead])

/-- Embedding of one serviced iteration of the main loop (src/main.py lines
176-185): the pending flag was observed and cleared, `measure_and_publish`
runs, and on any `False` result the loop sleeps 5 s and calls
`mqtt_connect()` once, regardless of that call's outcome. -/
def loop_body (cfg : Config) (hasClient : Bool) (e : CycleEnv) :
    Bool × List Ev :=
  let r := measure_and_publish cfg hasClient e
  if r.1 then (r.2.1, r.2.2)
  else
    let c := mqtt_connect r.2.1 e.reconnectOk
    (c.2.1, r.2.2 ++ Ev.sleepSec 5 :: c.2.2)

/-- Embedding of the polling loop of `connect_wifi` (src/main.py lines
46-57).  `upAt k` is whether `wlan.isconnected()` holds at the k-th poll
(polls are 0.5 s apart, so `k / 2` integer seconds have elapsed); the loop
gives up when the elapsed time exceeds the fixed 15-second timeout.  Fuel
makes the recursion structural; fuel 40 is more than the 33 polls the
timeout admits. -/
def wifiPoll (upAt : Nat → Bool) : Nat → Nat → Bool
  | 0, _ => false
  | fuel + 1, k =>
    if upAt k then true
    else if k / 2 > 15 then false
    else wifiPoll upAt fuel (k + 1)

/-- Embedding of `connect_wifi` (src/main.py lines 43-60): true iff the
link reaches Up before the timeout. -/
def connect_wifi (upAt : Nat → Bool) : Bool := wifiPoll upAt 40 0

/-- Folding the serviced main-loop iterations over a list of per-cycle
oracle environments (the `while True` loop of src/main.py lines 175-187,
one entry per poll that found `measure_pending` set). -/
def run_cycles (cfg : Config) : Bool → List CycleEnv → Bool × List Ev
  | st, [] => (st, [])
  | st, e :: es =>
    let r := loop_body cfg st e
    let rest := run_cycles cfg r.1 es
    (rest.1, r.2 ++ rest.2)

/-- Embedding of `main` (src/main.py lines 156-199): Wi-Fi bring-up first —
on failure log, sleep 10 s and `machine.reset()` — else best-effort initial
`mqtt_connect()`, the serviced loop iterations, and the shutdown path
(`tm.deinit()`, then `disconnect()` if a client exists). -/
def run_main (cfg : Config) (upAt : Nat → Bool) (initConnectOk : Bool)
    (cycles : List CycleEnv) : List Ev :=
  if connect_wifi upAt then
    let c := mqtt_connect false initConnectOk
    let r := run_cycles cfg c.2.1 cycles
    c.2.2 ++ r.2 ++ (if r.1 then [Ev.clientDisconnect] else [])
  else
    [Ev.log "Cannot continue without WiFi. Rebooting in 10s.", Ev.sleepSec 10, Ev.reset]

/-- Placement of one interrupt-context `timer_callback` invocation relative
to the two atomic steps of the main loop's test-and-clear (src/main.py
lines 176-177): before the test, between the test and the clear, or after
the clear. -/
inductive SetAt where
  | beforeTest : SetAt
  | betweenTestClear : SetAt
  | afterClear : SetAt
  deriving DecidableEq

/-- Embedding of `timer_callback` (src/main.py lines 149-153): one atomic
store `measure_pending = True`. -/
def timer_callback (_ : Bool) : Bool := true

/-- The atomic read of `measure_pending` in `if measure_pending:`
(src/main.py line 176). -/
def poll_test (flag : Bool) : Bool := flag

/-- The store `measure_pending = False` (src/main.py line 177), executed
only when the test returned true. -/
def poll_clear (flag r : Bool) : Bool := if r then false else flag

/-- All interleavings of one `timer_callback` store with one test-and-clear
of the main loop, starting from flag value `flag0`; returns (value the
take observed, final flag value). -/
def take_with_set (flag0 : Bool) : SetAt → Bool × Bool
  | SetAt.beforeTest =>
    let f1 := timer_callback flag0
    let r := poll_test f1
    (r, poll_clear f1 r)
  | SetAt.betweenTestClear =>
    let r := poll_test flag0
    let f1 := timer_callback flag0
    (r, poll_clear f1 r)
  | SetAt.afterClear =>
    let r := poll_test flag0
    let f1 := poll_clear flag0 r
    (r, timer_callback f1)

/-- Atomic actions on the `measure_pending` flag: the main loop's test
(line 176, reads only), its clear (line 177), any step of the in-progress
work (lines 178-185: `measure_and_publish`, the backoff sleep and the
reconnect never touch `measure_pending`), and an interrupt-context tick
(`timer_callback`, line 153). -/
inductive Act where
  | test : Act
  | clear : Act
  | work : Act
  | tick : Act
  deriving DecidableEq

/-- Effect of one atomic action on the flag. -/
def actStep (f : Bool) : Act → Bool
  | Act.test => f
  | Act.clear => false
  | Act.work => f
  | Act.tick => true

/-- Final flag value after a sequence of atomic actions. -/
def runActs (f : Bool) (l : List Act) : Bool := l.foldl actStep f

/-- One serviced main-loop iteration as its sequence of flag-relevant
atomic steps: the test, then the clear, then the work (src/main.py lines
176-185 clear the flag before calling `measure_and_publish`). -/
def loop_iteration_acts (work : List Act) : List Act :=
  Act.test :: Act.clear :: work

/-- Consume an expected literal prefix. -/
def dropLit : List Char → List Char → Option (List Char)
  | [], s => some s
  | _ :: _, [] => none
  | c :: l, d :: s => if c = d then dropLit l s else none

/-- Consume characters up to and including the closing double quote of a
JSON string body. -/
def readStr : List Char → Option (List Char × List Char)
  | [] => none
  | c :: s =>
    if c = '"' then some ([], s)
    else (readStr s).map (fun p => (c :: p.1, p.2))

/-- Consume a nonempty run of decimal digits and decode it. -/
def readNatNum (s : List Char) : Option (Nat × List Char) :=
  let ds := s.takeWhile isDigitC
  if ds.isEmpty then none
  else some (Nat.ofDigits 10 (ds.reverse.map charVal), s.dropWhile isDigitC)

/-- Consume an optionally negated decimal integer. -/
def readIntNum (s : List Char) : Option (Int × List Char) :=
  if s.head? = some '-' then
    (readNatNum s.tail).map (fun p => (-(p.1 : Int), p.2))
  else
    (readNatNum s).map (fun p => ((p.1 : Int), p.2))

/-- Literal opening of the wire payload up to the thing-name string body
(with the space after the colon that `json.dumps` emits). -/
def litThing : List Char :=
  [ '\x7b', '"', 't', 'h', 'i', 'n', 'g', '"', ':', ' ', '"']

/-- Literal between the thing value and the timestamp value (after the
separating comma; includes the separator spaces `json.dumps` emits). -/
def litTimestampKey : List Char :=
  [ ' ', '"', 't', 'i', 'm', 'e', 's', 't', 'a', 'm', 'p', '"', ':', ' ']

/-- Literal between the timestamp value and the temperature value (after
the separating comma). -/
def litTemperatureKey : List Char :=
  [ ' ', '"', 't', 'e', 'm', 'p', 'e', 'r', 'a', 't', 'u', 'r', 'e', '_', 'C', '"', ':', ' ']

/-- Literal between the temperature value and the humidity value (after
the separating comma). -/
def litHumidityKey : List Char :=
  [ ' ', '"', 'h', 'u', 'm', 'i', 'd', 'i', 't', 'y', '_', 'p', 'c', 't', '"', ':', ' ']

/-- Parser for the wire payload format of §6: recovers the thing name, the
timestamp, the temperature and the humidity from the serialized JSON
object. -/
def parse_payload (s : String) : Option (String × Int × Int × Nat) := do
  let r0 ← dropLit litThing s.data
  let (tc, r1) ← readStr r0
  let r2 ← dropLit (',' :: litTimestampKey) r1
  let (ts, r3) ← readIntNum r2
  let r4 ← dropLit (',' :: litTemperatureKey) r3
  let (tv, r5) ← readIntNum r4
  let r6 ← dropLit (',' :: litHumidityKey) r5
  let (hv, r7) ← readNatNum r6
  let r8 ← dropLit [ '\x7d' ] r7
  if r8.isEmpty then some (String.mk tc, ts, tv, hv) else none

/-! Theorems. -/

/-- Helper: `mqtt_connect` performs exactly one handshake attempt,
whatever the state and outcome. -/
theorem mqtt_connect_events (st co : Bool) :
    (mqtt_connect st co).2.2 = [Ev.clientConnect] := by
  cases st <;> cases co <;> rfl

/-- C1 counterexample.  In the cycle whose sensor read fails (oracle
`sensorOk = false`), the Supervisor loop does sleep the 5-second backoff
delay and does call the Secure Session connect before the next scheduled
tick, contrary to the claim. -/
theorem c1_counterexample :
    Ev.sleepSec 5 ∈ (loop_body ⟨"T1"⟩ true ⟨false, 0, 0, 0, true, true, true⟩).2 ∧
    Ev.clientConnect ∈ (loop_body ⟨"T1"⟩ true ⟨false, 0, 0, 0, true, true, true⟩).2 := by
  decide

/-- C1 (amended).  When the sensor read fails, `measure_and_publish`
returns failure with no publish attempt and no change to the session
state; but the Supervisor then treats the cycle like any failed cycle: it
sleeps the fixed 5-second backoff delay and calls the Secure Session
connect once before returning to the poll loop. -/
theorem c1_amended_thm (cfg : Config) (st : Bool) (e : CycleEnv)
    (h : e.sensorOk = false) :
    measure_and_publish cfg st e = (false, st, [Ev.sensorRead]) ∧
    (loop_body cfg st e).2 = [Ev.sensorRead, Ev.sleepSec 5, Ev.clientConnect] := by
  cases e with
  | mk so tp hm nw co sd rc =>
    cases h
    exact ⟨rfl, by cases rc <;> rfl⟩

/-- C1 witness: the amended theorem at a concrete failing cycle. -/
theorem c1_witness :
    (⟨false, 0, 0, 0, true, true, true⟩ : CycleEnv).sensorOk = false ∧
    measure_and_publish ⟨"T1"⟩ true ⟨false, 0, 0, 0, true, true, true⟩ =
      (false, true, [Ev.sensorRead]) ∧
    (loop_body ⟨"T1"⟩ true ⟨false, 0, 0, 0, true, true, true⟩).2 =
      [Ev.sensorRead, Ev.sleepSec 5, Ev.clientConnect] :=
  ⟨rfl, c1_amended_thm ⟨"T1"⟩ true ⟨false, 0, 0, 0, true, true, true⟩ rfl⟩

/-- C2 counterexample.  A publish issued while the session is not Connected
(`mqtt_client is None`) does not fail immediately: it attempts a connect,
and when that connect succeeds it also sends on the transport and returns
success. -/
theorem c2_counterexample :
    (mqtt_publish ⟨"T1"⟩ false true true "p").1 = true ∧
    Ev.clientConnect ∈ (mqtt_publish ⟨"T1"⟩ false true true "p").2.2 ∧
    Ev.send (mqtt_topic ⟨"T1"⟩) "p" ∈ (mqtt_publish ⟨"T1"⟩ false true true "p").2.2 := by
  decide

/-- C2 (amended).  When the session is not Connected, `mqtt_publish` first
attempts a connect: if the connect fails the call returns failure having
performed only the handshake attempt (no send); if the connect succeeds the
publish proceeds with a transport send. -/
theorem c2_amended_thm (cfg : Config) (so : Bool) (p : String) :
    mqtt_publish cfg false false so p = (false, false, [Ev.clientConnect]) ∧
    mqtt_publish cfg false true so p =
      ((publish_try cfg true so p).1, (publish_try cfg true so p).2.1,
        Ev.clientConnect :: (publish_try cfg true so p).2.2) := by
  exact ⟨rfl, rfl⟩

/-- C3 counterexample.  Calling `mqtt_connect` while already Connected is
not a no-op: it re-issues the connect handshake, and if that handshake
fails the call returns failure and tears the session down to
Disconnected. -/
theorem c3_counterexample :
    Ev.clientConnect ∈ (mqtt_connect true true).2.2 ∧
    (mqtt_connect true false).1 = false ∧
    (mqtt_connect true false).2.1 = false := by
  decide

/-- C3 (amended).  Calling `mqtt_connect` while already Connected re-issues
the MQTT connect handshake on the existing client: if the handshake
succeeds the call returns success and the session stays Connected; if it
fails the call returns failure and the session becomes Disconnected. -/
theorem c3_amended_thm (co : Bool) :
    mqtt_connect true co = (co, co, [Ev.clientConnect]) := by
  cases co <;> rfl

/-- C4.  Every failing Secure Session operation leaves the session
Disconnected: a failing `mqtt_connect` ends with `mqtt_client = None`, and
a `mqtt_publish` whose transport send fails returns failure with
`mqtt_client = None`, forcing a reconnect before the next publish. -/
theorem c4_thm :
    (∀ st : Bool, (mqtt_connect st false).1 = false ∧
      (mqtt_connect st false).2.1 = false) ∧
    (∀ (cfg : Config) (st co : Bool) (p : String),
      (mqtt_publish cfg st co false p).1 = false ∧
      (mqtt_publish cfg st co false p).2.1 = false) := by
  constructor
  · intro st
    cases st <;> exact ⟨rfl, rfl⟩
  · intro cfg st co p
    cases st <;> cases co <;> exact ⟨rfl, rfl⟩

/-- C5.  Whenever a publish cycle fails, the Supervisor's backoff step is
exactly: sleep the fixed 5-second delay, call the Secure Session connect
once, and return to the poll loop with whatever state that single connect
produced, regardless of its outcome. -/
theorem c5_thm (cfg : Config) (st : Bool) (e : CycleEnv)
    (h : (measure_and_publish cfg st e).1 = false) :
    loop_body cfg st e =
      ((mqtt_connect (measure_and_publish cfg st e).2.1 e.reconnectOk).2.1,
        (measure_and_publish cfg st e).2.2 ++ [Ev.sleepSec 5, Ev.clientConnect]) := by
  simp only [loop_body, h, Bool.false_eq_true, if_false,
    mqtt_connect_events (measure_and_publish cfg st e).2.1 e.reconnectOk]

/-- C5 witness: the theorem at a concrete failing cycle. -/
theorem c5_witness :
    (measure_and_publish ⟨"T1"⟩ true ⟨false, 0, 0, 0, true, true, true⟩).1 = false ∧
    loop_body ⟨"T1"⟩ true ⟨false, 0, 0, 0, true, true, true⟩ =
      ((mqtt_connect
          (measure_and_publish ⟨"T1"⟩ true ⟨false, 0, 0, 0, true, true, true⟩).2.1
          (⟨false, 0, 0, 0, true, true, true⟩ : CycleEnv).reconnectOk).2.1,
        (measure_and_publish ⟨"T1"⟩ true ⟨false, 0, 0, 0, true, true, true⟩).2.2 ++
          [Ev.sleepSec 5, Ev.clientConnect]) :=
  ⟨rfl, c5_thm ⟨"T1"⟩ true ⟨false, 0, 0, 0, true, true, true⟩ rfl⟩

/-- C9.  For every prior flag value and every placement of an
interrupt-context `timer_callback` store relative to the main loop's
test-and-clear, the store is never lost: either this take observes a set
flag, or the flag is still set afterwards for the next take. -/
theorem c9_thm (f : Bool) (p : SetAt) :
    (take_with_set f p).1 = true ∨ (take_with_set f p).2 = true := by
  cases f <;> cases p <;> decide

/-- Helper: a sequence of atomic actions containing no clear leaves a set
flag set. -/
theorem foldl_actStep_true {l : List Act} (h : Act.clear ∉ l) :
    l.foldl actStep true = true := by
  induction l with
  | nil => rfl
  | cons a t ih =>
    cases a with
    | clear => exact absurd (List.mem_cons_self _ _) h
    | test => exact ih (fun hm => h (List.mem_cons_of_mem _ hm))
    | work => exact ih (fun hm => h (List.mem_cons_of_mem _ hm))
    | tick => exact ih (fun hm => h (List.mem_cons_of_mem _ hm))

/-- C10.  The loop clears the pending flag before the work begins; a timer
tick that fires at any point after the clear — anywhere inside the
in-progress work, including its backoff sleep — leaves the flag set when
the iteration ends, so the next loop iteration's test observes it and
services it (the in-progress work never absorbs such a tick). -/
theorem c10_thm (f0 : Bool) (w1 w2 : List Act) (h : Act.clear ∉ w2) :
    runActs f0 (loop_iteration_acts (w1 ++ Act.tick :: w2)) = true := by
  show ((w1 ++ Act.tick :: w2).foldl actStep
    (actStep (actStep f0 Act.test) Act.clear)) = true
  rw [List.foldl_append]
  show (Act.tick :: w2).foldl actStep (w1.foldl actStep false) = true
  show w2.foldl actStep true = true
  exact foldl_actStep_true h

/-- C10 witness: the theorem at a concrete interleaving. -/
theorem c10_witness :
    (Act.clear ∉ ([Act.work] : List Act)) ∧
    runActs true (loop_iteration_acts ([] ++ Act.tick :: [Act.work])) = true :=
  ⟨by decide, c10_thm true [] [Act.work] (by decide)⟩

/-- Helper: consuming a literal prefix succeeds and leaves the tail. -/
theorem dropLit_app (l s : List Char) : dropLit l (l ++ s) = some s := by
  induction l with
  | nil => rfl
  | cons c t ih => simp [dropLit, ih]

/-- Helper: variant of `dropLit_app` with the head character exposed. -/
theorem dropLit_cons_app (c : Char) (l s : List Char) :
    dropLit (c :: l) (c :: (l ++ s)) = some s := by
  simp [dropLit, dropLit_app]

/-- Helper: reading a string body stops at the first double quote. -/
theorem readStr_app (tc : List Char) (h : '"' ∉ tc) (s : List Char) :
    readStr (tc ++ '"' :: s) = some (tc, s) := by
  induction tc with
  | nil => simp [readStr]
  | cons a t ih =>
    have ha : ¬(a = '"') := fun he => h (he ▸ List.mem_cons_self a t)
    simp [readStr, ha, ih (fun hm => h (List.mem_cons_of_mem _ hm))]

/-- Helper: `takeWhile`/`dropWhile` split around the first failing
character. -/
theorem takeWhile_app (p : Char → Bool) (l1 : List Char)
    (h1 : ∀ x ∈ l1, p x = true) (c : Char) (l2 : List Char)
    (hc : p c = false) :
    (l1 ++ c :: l2).takeWhile p = l1 ∧ (l1 ++ c :: l2).dropWhile p = c :: l2 := by
  induction l1 with
  | nil => simp [List.takeWhile_cons, List.dropWhile_cons, hc]
  | cons a t ih =>
    have ha : p a = true := h1 a (List.mem_cons_self _ _)
    have ht := ih (fun x hx => h1 x (List.mem_cons_of_mem _ hx))
    simp [List.takeWhile_cons, List.dropWhile_cons, ha, ht.1, ht.2]

/-- Helper: the fueled digit function agrees with `Nat.digits 10` once the
fuel dominates the argument. -/
theorem natDigitsF_eq_digits (fuel : Nat) :
    ∀ n : Nat, n ≤ fuel → natDigitsF fuel n = Nat.digits 10 n := by
  induction fuel with
  | zero =>
    intro n hn
    interval_cases n
    simp [natDigitsF]
  | succ fuel ih =>
    intro n hn
    by_cases h0 : n = 0
    · simp [natDigitsF, h0]
    · have hpos : 0 < n := Nat.pos_of_ne_zero h0
      rw [Nat.digits_def' (by norm_num : (1 : ℕ) < 10) hpos]
      simp only [natDigitsF, if_neg h0]
      have hle : n / 10 ≤ fuel := by
        have := Nat.div_lt_self hpos (by norm_num : 1 < 10)
        omega
      rw [ih (n / 10) hle]

/-- Helper: `natDigits` computes the base-10 digits. -/
theorem natDigits_eq (n : Nat) : natDigits n = Nat.digits 10 n :=
  natDigitsF_eq_digits n n le_rfl

/-- Helper: every character of a rendered natural number is a decimal
digit. -/
theorem mem_natChars_digit {n : Nat} {c : Char} (hc : c ∈ natChars n) :
    isDigitC c = true := by
  unfold natChars at hc
  by_cases h0 : n = 0
  · rw [if_pos h0] at hc
    simp at hc
    subst hc
    decide
  · rw [if_neg h0] at hc
    rw [List.mem_reverse] at hc
    obtain ⟨d, hd, rfl⟩ := List.mem_map.mp hc
    have hd10 : d < 10 :=
      Nat.digits_lt_base (by norm_num) (by rwa [natDigits_eq] at hd)
    interval_cases d <;> decide

/-- Helper: a rendered natural number is never empty. -/
theorem natChars_ne_nil (n : Nat) : natChars n ≠ [] := by
  unfold natChars
  by_cases h0 : n = 0
  · simp [h0]
  · rw [if_neg h0]
    simp [natDigits_eq, Nat.digits_ne_nil_iff_ne_zero, h0]

/-- Helper: decoding inverts the digit-to-character map. -/
theorem charVal_digitChar {d : Nat} (hd : d < 10) : charVal (digitChar d) = d := by
  interval_cases d <;> decide

/-- Helper: decoding the rendered digit string recovers the number. -/
theorem decode_natChars (n : Nat) :
    Nat.ofDigits 10 ((natChars n).reverse.map charVal) = n := by
  unfold natChars
  by_cases h0 : n = 0
  · rw [if_pos h0]
    subst h0
    decide
  · rw [if_neg h0, List.reverse_reverse, List.map_map]
    have hmap : ∀ d ∈ natDigits n, (charVal ∘ digitChar) d = id d := by
      intro d hd
      exact charVal_digitChar
        (Nat.digits_lt_base (by norm_num) (by rwa [natDigits_eq] at hd))
    rw [List.map_congr_left hmap, List.map_id, natDigits_eq, Nat.ofDigits_digits]

/-- Helper: reading a digit run terminated by a non-digit recovers the
rendered natural number. -/
theorem readNatNum_app (n : Nat) (c : Char) (rest : List Char)
    (hc : isDigitC c = false) :
    readNatNum (natChars n ++ c :: rest) = some (n, c :: rest) := by
  have h := takeWhile_app isDigitC (natChars n)
    (fun x hx => mem_natChars_digit hx) c rest hc
  have hne := natChars_ne_nil n
  simp only [readNatNum, h.1, h.2, decode_natChars]
  simp [hne]

/-- Helper: reading an integer terminated by a non-digit recovers the
rendered integer. -/
theorem readIntNum_app (i : Int) (c : Char) (rest : List Char)
    (hc : isDigitC c = false) :
    readIntNum (intChars i ++ c :: rest) = some (i, c :: rest) := by
  unfold readIntNum intChars
  by_cases hi : i < 0
  · rw [if_pos hi]
    simp only [List.cons_append, List.head?_cons, List.tail_cons, if_pos rfl,
      readNatNum_app i.natAbs c rest hc, Option.map_some']
    have h2 : -((i.natAbs : Nat) : Int) = i := by omega
    rw [h2]
    simp
  · rw [if_neg hi]
    obtain ⟨d, t, hdt⟩ : ∃ d t, natChars i.toNat = d :: t := by
      cases hnc : natChars i.toNat with
      | nil => exact absurd hnc (natChars_ne_nil _)
      | cons d t => exact ⟨d, t, rfl⟩
    have hd : isDigitC d = true :=
      mem_natChars_digit (hdt ▸ List.mem_cons_self d t)
    have hd2 : ¬(d = '-') := by
      intro he
      rw [he] at hd
      exact absurd hd (by decide)
    have hh : (natChars i.toNat ++ c :: rest).head? = some d := by
      rw [hdt]
      rfl
    rw [if_neg (by rw [hh]; simp [hd2])]
    rw [readNatNum_app i.toNat c rest hc]
    have : ((i.toNat : Nat) : Int) = i := by omega
    simp [this]

/-- Helper: comma-terminated integer read. -/
theorem readIntNum_app_comma (i : Int) (rest : List Char) :
    readIntNum (intChars i ++ ',' :: rest) = some (i, ',' :: rest) :=
  readIntNum_app i ',' rest (by decide)

/-- Helper: brace-terminated natural number read. -/
theorem readNatNum_app_brace (n : Nat) (rest : List Char) :
    readNatNum (natChars n ++ '\x7d' :: rest) = some (n, '\x7d' :: rest) :=
  readNatNum_app n '\x7d' rest (by decide)

/-- Helper: rendering a cast natural number renders the natural number. -/
theorem intChars_natCast (n : Nat) : intChars (n : Int) = natChars n := by
  unfold intChars
  rw [if_neg (by omega), Int.toNat_natCast]

/-- Helper: the data of a constructed string is its character list. -/
theorem string_data_mk (l : List Char) : (String.mk l).data = l := rfl

/-- Helper: the data of a string rebuilt from its characters is itself. -/
theorem string_mk_data (s : String) : String.mk s.data = s := rfl

/-- Helper: character list of the literal key thing. -/
theorem data_key_thing : "thing".data = ['t', 'h', 'i', 'n', 'g'] := rfl

/-- Helper: character list of the literal key timestamp. -/
theorem data_key_timestamp :
    "timestamp".data = ['t', 'i', 'm', 'e', 's', 't', 'a', 'm', 'p'] := rfl

/-- Helper: character list of the literal key temperature_C. -/
theorem data_key_temperature :
    "temperature_C".data =
      ['t', 'e', 'm', 'p', 'e', 'r', 'a', 't', 'u', 'r', 'e', '_', 'C'] := rfl

/-- Helper: character list of the literal key humidity_pct. -/
theorem data_key_humidity :
    "humidity_pct".data =
      ['h', 'u', 'm', 'i', 'd', 'i', 't', 'y', '_', 'p', 'c', 't'] := rfl

/-- Helper: the serialized wire payload, as a character list, decomposed
into the segments the parser consumes. -/
theorem dumps_telemetry_data (thing : String) (ts tv : Int) (hum : Nat) :
    (json_dumps (telemetry_payload thing ts tv hum)).data =
      litThing ++ (thing.data ++ '"' :: (',' :: (litTimestampKey ++
        (intChars ts ++ (',' :: (litTemperatureKey ++
          (intChars tv ++ (',' :: (litHumidityKey ++
            (natChars hum ++ [ '\x7d' ])))))))))) := by
  simp [json_dumps, telemetry_payload, renderObj, renderPair, renderJVal,
    litThing, litTimestampKey, litTemperatureKey, litHumidityKey,
    string_data_mk, data_key_thing, data_key_timestamp, data_key_temperature,
    data_key_humidity, intChars_natCast, List.append_assoc]

/-- Helper: serialize-then-parse round-trip for any thing name free of
double quotes and any field values. -/
theorem parse_dumps (thing : String) (ts tv : Int) (hum : Nat)
    (h : '"' ∉ thing.data) :
    parse_payload (json_dumps (telemetry_payload thing ts tv hum)) =
      some (thing, ts, tv, hum) := by
  simp only [parse_payload, dumps_telemetry_data, Option.bind_eq_bind,
    dropLit_app, Option.some_bind, readStr_app thing.data h, dropLit_cons_app,
    readIntNum_app_comma, readNatNum_app_brace]
  rfl

/-- C6 counterexample.  For thing "T1", timestamp 1700000000, temperature
24, humidity 55 the serialized payload the program sends is not the exact
compact string of Scenario E: `json.dumps` emits a space after every colon
and comma. -/
theorem c6_counterexample :
    json_dumps (telemetry_payload "T1" 1700000000 24 55) ≠
      "\x7b\"thing\":\"T1\",\"timestamp\":1700000000,\"temperature_C\":24,\"humidity_pct\":55\x7d" := by
  decide

/-- C6 (amended).  Every payload dict has exactly the four keys thing,
timestamp, temperature_C, humidity_pct in order; every successful cycle
sends exactly the serialized payload of the measured values to the topic
devices/\x7bthing_name\x7d/telemetry; and for thing "T1", timestamp
1700000000, temperature 24, humidity 55 the topic is devices/T1/telemetry
and the serialized payload is the Scenario E object rendered with the
default `json.dumps` separators (a space after every colon and comma). -/
theorem c6_amended_thm :
    (∀ (thing : String) (ts tv : Int) (hum : Nat),
      (telemetry_payload thing ts tv hum).map Prod.fst =
        ["thing", "timestamp", "temperature_C", "humidity_pct"]) ∧
    (∀ (cfg : Config) (st : Bool) (e : CycleEnv),
      (measure_and_publish cfg st e).1 = true →
      Ev.send (mqtt_topic cfg)
          (json_dumps (telemetry_payload cfg.thing_name e.now e.temp e.hum)) ∈
        (measure_and_publish cfg st e).2.2) ∧
    mqtt_topic ⟨"T1"⟩ = "devices/T1/telemetry" ∧
    json_dumps (telemetry_payload "T1" 1700000000 24 55) =
      "\x7b\"thing\": \"T1\", \"timestamp\": 1700000000, \"temperature_C\": 24, \"humidity_pct\": 55\x7d" := by
  refine ⟨fun thing ts tv hum => rfl, ?_, rfl, by decide⟩
  intro cfg st e h
  cases e with
  | mk so tp hm nw co sd rc =>
    cases so
    · exact absurd h (by simp [measure_and_publish])
    · cases st <;> cases co <;> cases sd <;>
        simp_all [measure_and_publish, mqtt_publish, publish_try, mqtt_connect]

/-- C6 witness: a concrete successful cycle sends the serialized payload
to the substituted topic. -/
theorem c6_witness :
    (measure_and_publish ⟨"T1"⟩ true ⟨true, 24, 55, 1700000000, true, true, true⟩).1 = true ∧
    Ev.send (mqtt_topic ⟨"T1"⟩)
        (json_dumps (telemetry_payload "T1" 1700000000 24 55)) ∈
      (measure_and_publish ⟨"T1"⟩ true ⟨true, 24, 55, 1700000000, true, true, true⟩).2.2 :=
  ⟨rfl, c6_amended_thm.2.1 ⟨"T1"⟩ true ⟨true, 24, 55, 1700000000, true, true, true⟩ rfl⟩

/-- C7.  Round-trip: serializing a TelemetrySample (any signed-integer
temperature, unsigned-integer humidity, integer timestamp) to the wire
payload and parsing the payload back yields identical timestamp,
temperature_C and humidity_pct values (and the thing name). -/
theorem c7_thm (ts tv : Int) (hum : Nat) :
    parse_payload (json_dumps (telemetry_payload THING_NAME ts tv hum)) =
      some (THING_NAME, ts, tv, hum) :=
  parse_dumps THING_NAME ts tv hum (by decide)

/-- Helper: no `mqtt_connect` performs a device reset. -/
theorem reset_not_mem_mqtt_connect (st co : Bool) :
    Ev.reset ∉ (mqtt_connect st co).2.2 := by
  cases st <;> cases co <;> decide

/-- Helper: no transport publish attempt performs a device reset. -/
theorem reset_not_mem_publish_try (cfg : Config) (st so : Bool) (p : String) :
    Ev.reset ∉ (publish_try cfg st so p).2.2 := by
  cases so <;> simp [publish_try]

/-- Helper: no `mqtt_publish` performs a device reset. -/
theorem reset_not_mem_mqtt_publish (cfg : Config) (st co so : Bool) (p : String) :
    Ev.reset ∉ (mqtt_publish cfg st co so p).2.2 := by
  cases st <;> cases co <;> cases so <;>
    simp [mqtt_publish, publish_try, mqtt_connect]

/-- Helper: no `measure_and_publish` cycle performs a device reset. -/
theorem reset_not_mem_measure_and_publish (cfg : Config) (st : Bool) (e : CycleEnv) :
    Ev.reset ∉ (measure_and_publish cfg st e).2.2 := by
  cases hso : e.sensorOk <;>
    simp [measure_and_publish, hso, reset_not_mem_mqtt_publish]

/-- Helper: no serviced loop iteration performs a device reset. -/
theorem reset_not_mem_loop_body (cfg : Config) (st : Bool) (e : CycleEnv) :
    Ev.reset ∉ (loop_body cfg st e).2 := by
  cases hr : (measure_and_publish cfg st e).1 <;>
    simp [loop_body, hr, reset_not_mem_measure_and_publish,
      reset_not_mem_mqtt_connect]

/-- Helper: no sequence of serviced loop iterations performs a device
reset. -/
theorem reset_not_mem_run_cycles (cfg : Config) (cycles : List CycleEnv) :
    ∀ st : Bool, Ev.reset ∉ (run_cycles cfg st cycles).2 := by
  induction cycles with
  | nil => intro st; simp [run_cycles]
  | cons e es ih =>
    intro st
    simp [run_cycles, reset_not_mem_loop_body, ih]

/-- Helper: the shutdown path never performs a device reset. -/
theorem reset_not_mem_shutdown (b : Bool) :
    Ev.reset ∉ (if b then [Ev.clientDisconnect] else ([] : List Ev)) := by
  cases b <;> decide

/-- C8.  If the network link bring-up fails (the fixed 15-second timeout in
`connect_wifi` elapses), `main` logs a diagnostic, sleeps a fixed 10-second
delay and performs a full device restart; and this is the only fatal path —
a reset appears in the trace only when the link bring-up failed, whatever
the sensor, connect and send outcomes of every cycle. -/
theorem c8_thm (cfg : Config) (upAt : Nat → Bool) (ic : Bool)
    (cycles : List CycleEnv) :
    (connect_wifi upAt = false →
      run_main cfg upAt ic cycles =
        [Ev.log "Cannot continue without WiFi. Rebooting in 10s.",
          Ev.sleepSec 10, Ev.reset]) ∧
    (Ev.reset ∈ run_main cfg upAt ic cycles → connect_wifi upAt = false) := by
  constructor
  · intro h
    simp [run_main, h]
  · intro h
    cases hcw : connect_wifi upAt
    · rfl
    · exfalso
      simp [run_main, hcw, reset_not_mem_mqtt_connect,
        reset_not_mem_run_cycles, reset_not_mem_shutdown] at h

/-- C8 witness: a link that never comes up yields exactly the log, the
fixed sleep and the reset; and the reset in that trace certifies the
bring-up failure. -/
theorem c8_witness :
    run_main ⟨"T1"⟩ (fun _ => false) true [] =
      [Ev.log "Cannot continue without WiFi. Rebooting in 10s.",
        Ev.sleepSec 10, Ev.reset] ∧
    connect_wifi (fun _ => false) = false :=
  ⟨(c8_thm ⟨"T1"⟩ (fun _ => false) true []).1 (by decide),
    (c8_thm ⟨"T1"⟩ (fun _ => false) true []).2 (by decide)⟩

end AwsDht
